import Mathlib

/-!
Shallow embedding of the watchdog-backend monitoring core.

Source files embedded here:
- src/src/monitoring/check-executor.ts          (executeCheck)
- src/unnamed/part_005                          (MonitoringEngine: timers, tick callback)
- src/unnamed/part_002                          (NodeService: update / delete / testCheck / executeHttpCheck)
- src/src/repositories/health-check.repository.ts
    (HealthCheckRepository.getTelemetryBuckets, getCheckCounts, getUptimePercentage,
     getAverageResponseTime; NodeRepository.incrementFailures, resetFailures,
     updateStatus, list, countByUser)
- src/src/services/dashboard.service.ts         (DashboardService.getOverview)

Machine integers are modelled as Nat (timestamps in ms, counters) and exact
rationals (averages); fallible reads return Option.  The MongoDB stores are
modelled as in-memory lists mutated by explicit state passing.
-/

namespace Watchdog

/-- Node status enum, the four literals of `@shared/types` NodeStatus. -/
inductive NodeStatus where
  | active
  | paused
  | warning
  | down
deriving DecidableEq, Repr

/-- HTTP method enum of `@shared/types` HttpMethod. -/
inductive HttpMethod where
  | GET
  | POST
  | PUT
  | PATCH
  | DELETE
deriving DecidableEq, Repr

/-- A monitored node (NodeDocument of src/src/models).  Timestamps are epoch
milliseconds; `last_check_at = none` models the null initial value. -/
structure Node where
  id : String
  user_id : String
  name : String
  endpoint_url : String
  method : HttpMethod
  headers : List (String × String)
  body : String
  check_interval : Nat
  expected_status_codes : List Nat
  failure_threshold : Nat
  status : NodeStatus
  consecutive_failures : Nat
  last_check_at : Option Nat
  created_at : Nat
deriving DecidableEq, Repr

/-- A health-check sample (HealthCheckDocument), the immutable record of one
probe outcome. -/
structure HealthCheck where
  id : String
  node_id : String
  status_code : Nat
  status_text : String
  response_time : Nat
  success : Bool
  error_message : String
  created_at : Nat
deriving DecidableEq, Repr

/-! ## NodeRepository mutations (src/src/repositories/health-check.repository.ts,
NodeRepository section) applied to a single node record.

`incrementFailures`: `$inc: consecutive_failures by 1, $set: last_check_at = new Date()`.
`resetFailures`: `$set: consecutive_failures = 0, status = active, last_check_at = new Date()`.
`updateStatus(id, status, extras?)`: `$set: status (+ extras)`; the only extra
ever passed on the tick path is `last_check_at`, modelled as an Option. -/

/-- NodeRepository.incrementFailures on one node record, with `now` the
`new Date()` taken at the mutation. -/
def incrementFailures (n : Node) (now : Nat) : Node :=
  { n with consecutive_failures := n.consecutive_failures + 1, last_check_at := some now }

/-- NodeRepository.resetFailures on one node record. -/
def resetFailures (n : Node) (now : Nat) : Node :=
  { n with consecutive_failures := 0, status := NodeStatus.active, last_check_at := some now }

/-- NodeRepository.updateStatus on one node record; `extra` is the optional
`last_check_at` extras field. -/
def updateStatus (n : Node) (st : NodeStatus) (extra : Option Nat) : Node :=
  { n with status := st,
           last_check_at := match extra with
             | some t => some t
             | none => n.last_check_at }

/-! ## State Transition Engine: the node mutation performed by executeCheck
(src/src/monitoring/check-executor.ts lines 72-89), given the probe's success
flag.  The source reads `updated` back from `incrementFailures` (`new: true`),
so `updated.consecutive_failures` is the incremented count and `updated.status`
the prior status. -/

/-- Failure branch of executeCheck (lines 79-89): increment, then
`if updated.consecutive_failures >= node.failure_threshold` set `down` unless
already `down`, `else if updated.consecutive_failures >= 2 && updated.status != warning`
set `warning`. -/
def applyFailure (n : Node) (now : Nat) : Node :=
  let updated := incrementFailures n now
  if updated.consecutive_failures ≥ n.failure_threshold then
    if updated.status ≠ NodeStatus.down then
      updateStatus updated NodeStatus.down none
    else
      updated
  else if updated.consecutive_failures ≥ 2 ∧ updated.status ≠ NodeStatus.warning then
    updateStatus updated NodeStatus.warning none
  else
    updated

/-- Success branch of executeCheck (lines 72-78): `resetFailures` when the node
had accumulated failures, else `updateStatus(id, active, last_check_at: now)`. -/
def applySuccess (n : Node) (now : Nat) : Node :=
  if n.consecutive_failures > 0 then
    resetFailures n now
  else
    updateStatus n NodeStatus.active (some now)

/-- The whole node-state mutation of one executeCheck invocation, keyed by the
probe outcome's success flag. -/
def executeCheckNode (n : Node) (success : Bool) (now : Nat) : Node :=
  if success then applySuccess n now else applyFailure n now

/-- Modelled from the spec (claim C1's wording), for refinement comparison
only: the claimed failure rule read as a sequential if / else-if chain whose
first guard is the conjunction "new count ≥ failure_threshold and status not
already down".  Not translated from the source. -/
def claimFailureStep (n : Node) (now : Nat) : Node :=
  let m := incrementFailures n now
  if m.consecutive_failures ≥ n.failure_threshold ∧ n.status ≠ NodeStatus.down then
    { m with status := NodeStatus.down }
  else if m.consecutive_failures ≥ 2 ∧ n.status ≠ NodeStatus.warning then
    { m with status := NodeStatus.warning }
  else
    m

/-! ## Probe Executor (src/src/monitoring/check-executor.ts lines 20-55)

The network is abstracted by a `FetchResult` oracle: either the request
completed with an HTTP status, reason phrase and a body-read attempt (which
itself may fail — the source wraps `response.text()` in an inner try/catch),
or the request itself failed (DNS, connection refused, TLS, timeout) with an
error message, modelling the outer catch. -/

deriving instance DecidableEq for Except

/-- Outcome of the `fetch` call as observed by the executor. -/
inductive FetchResult where
  | ok (status : Nat) (statusText : String) (bodyRead : Except String String)
  | err (msg : String)
deriving DecidableEq, Repr

/-- The classification fields of the outcome the executor persists.
`response_time` is wall-clock and not modelled. -/
structure ProbeOutcome where
  status_code : Nat
  status_text : String
  success : Bool
  error_message : String
  response_body : String
deriving DecidableEq, Repr

/-- Body capture, truncated at 10000 characters with an ellipsis marker. -/
def truncateBody (s : String) : String :=
  if s.length > 10000 then s.take 10000 ++ "...[truncated]" else s

/-- The outcome-classification portion of executeCheck.  On a completed
response: status from the response, `success = expected_status_codes.includes(status)`,
body-read failure swallowed by the inner catch (placeholder body, status kept).
On a failed request (outer catch): `status_code = 0`,
`status_text = 'Connection Failed'`, `error_message = error.message || 'Request failed'`. -/
def executeProbe (n : Node) (fr : FetchResult) : ProbeOutcome :=
  match fr with
  | FetchResult.ok st stText bodyRead =>
      { status_code := st
        status_text := stText
        success := n.expected_status_codes.contains st
        error_message := ""
        response_body :=
          match bodyRead with
          | Except.ok t => truncateBody t
          | Except.error _ => "[unable to read response body]" }
  | FetchResult.err msg =>
      { status_code := 0
        status_text := "Connection Failed"
        success := false
        error_message := if msg = "" then "Request failed" else msg
        response_body := "" }

/-! ## MonitoringEngine (src/unnamed/part_005)

`timers` models the `Map<nodeId, Timeout>` registry (as the list of registered
node ids); `inFlight` models the node ids whose `executeCheck` promise from an
earlier tick is still pending.  `setInterval` invokes the async tick callback
on schedule without awaiting the previous invocation, so a tick can fire while
its node id is in `inFlight`; the callback consults only the node store and
the node's status — it never consults `inFlight`. -/

/-- Combined store and scheduler state. -/
structure EngineState where
  nodes : List Node
  samples : List HealthCheck
  timers : List String
  inFlight : List String
deriving DecidableEq, Repr

/-- NodeRepository.findById (`findOne` on id). -/
def findById (nodes : List Node) (id : String) : Option Node :=
  nodes.find? (fun n => n.id == id)

/-- NodeRepository.findByIdAndUser (`findOne` on id and user_id). -/
def findByIdAndUser (nodes : List Node) (id uid : String) : Option Node :=
  nodes.find? (fun n => n.id == id && n.user_id == uid)

/-- MonitoringEngine.stopNode: clearInterval and delete the registry entry if
present, otherwise a no-op. -/
def stopNode (timers : List String) (nodeId : String) : List String :=
  timers.erase nodeId

/-- MonitoringEngine.startNode registry effect: stop an existing timer for the
node, then register a fresh one. -/
def startNode (timers : List String) (nodeId : String) : List String :=
  nodeId :: timers.erase nodeId

/-- MonitoringEngine.isMonitoring. -/
def isMonitoring (timers : List String) (nodeId : String) : Bool :=
  timers.contains nodeId

/-- What a tick did: dropped without probing, or began a probe. -/
inductive TickResult where
  | skipped
  | probeStarted
deriving DecidableEq, Repr

/-- The tick callback installed by startNode (part_005 lines 33-44): re-read
the node; if missing or paused, cancel this timer and return; otherwise run
executeCheck (the probe becomes in-flight).  There is no guard on `inFlight`. -/
def tickFire (s : EngineState) (nodeId : String) : EngineState × TickResult :=
  match findById s.nodes nodeId with
  | none => ({ s with timers := stopNode s.timers nodeId }, TickResult.skipped)
  | some n =>
      if n.status = NodeStatus.paused then
        ({ s with timers := stopNode s.timers nodeId }, TickResult.skipped)
      else
        ({ s with inFlight := nodeId :: s.inFlight }, TickResult.probeStarted)

/-! ## NodeService (src/unnamed/part_002, first module in the file) -/

/-- UpdateNodeDTO; absent fields are `none`. -/
structure UpdateNodeDTO where
  service_name : Option String
  endpoint_url : Option String
  method : Option HttpMethod
  headers : Option (List (String × String))
  body : Option String
  check_interval : Option Nat
  failure_threshold : Option Nat
  expected_status_codes : Option (List Nat)
deriving DecidableEq, Repr

/-- The all-absent patch. -/
def emptyPatch : UpdateNodeDTO :=
  { service_name := none, endpoint_url := none, method := none, headers := none,
    body := none, check_interval := none, failure_threshold := none,
    expected_status_codes := none }

/-- JS truthiness guard `if (data.field)` for a string field: an empty string
is falsy and leaves the stored value unchanged. -/
def patchStr (cur : String) (v : Option String) : String :=
  match v with
  | some s => if s = "" then cur else s
  | none => cur

/-- JS truthiness guard `if (data.field)` for a numeric field: zero is falsy. -/
def patchNat (cur : Nat) (v : Option Nat) : Nat :=
  match v with
  | some k => if k = 0 then cur else k
  | none => cur

/-- The `updateData` assembly of NodeService.update (part_002 lines 203-211)
applied to a node: string/number fields behind `if (data.x)` truthiness,
headers and body behind `!== undefined`, method and expected_status_codes
behind `if (data.x)` (always truthy when present). -/
def applyPatch (n : Node) (d : UpdateNodeDTO) : Node :=
  { n with
    name := patchStr n.name d.service_name
    endpoint_url := patchStr n.endpoint_url d.endpoint_url
    method := match d.method with | some m => m | none => n.method
    headers := match d.headers with | some h => h | none => n.headers
    body := match d.body with | some b => b | none => n.body
    check_interval := patchNat n.check_interval d.check_interval
    failure_threshold := patchNat n.failure_threshold d.failure_threshold
    expected_status_codes :=
      match d.expected_status_codes with | some c => c | none => n.expected_status_codes }

/-- NodeRepository.update: `findOneAndUpdate` on (id, user_id) — patch the
first matching record, returning the new list and the updated document
(`new: true`), or `none` when no record matches. -/
def updateNodeInList : List Node → String → String → UpdateNodeDTO → List Node × Option Node
  | [], _, _, _ => ([], none)
  | n :: rest, id, uid, d =>
      if n.id == id && n.user_id == uid then
        let n' := applyPatch n d
        (n' :: rest, some n')
      else
        let r := updateNodeInList rest id uid d
        (n :: r.1, r.2)

/-- NodeService.update (part_002 lines 201-240): apply the patch; when the
updated node's status is active and the engine currently monitors it, call
monitoringEngine.startNode (cancel + reinstall the timer).  The Bool records
whether startNode was called. -/
def updateNode (s : EngineState) (nodeId userId : String) (d : UpdateNodeDTO) :
    EngineState × Option Node × Bool :=
  let r := updateNodeInList s.nodes nodeId userId d
  match r.2 with
  | none => ({ s with nodes := r.1 }, none, false)
  | some node =>
      if node.status = NodeStatus.active ∧ isMonitoring s.timers nodeId = true then
        ({ s with nodes := r.1, timers := startNode s.timers nodeId }, some node, true)
      else
        ({ s with nodes := r.1 }, some node, false)

/-- Observable side effects of the delete path, in execution order. -/
inductive Effect where
  | nodeDeleted (id : String)
  | timerStopped (id : String)
  | samplesDeleted (id : String)
deriving DecidableEq, Repr

/-- NodeRepository.delete: `deleteOne` on (id, user_id) — remove the first
matching record; the Bool is `deletedCount > 0`. -/
def removeNode : List Node → String → String → List Node × Bool
  | [], _, _ => ([], false)
  | n :: rest, id, uid =>
      if n.id == id && n.user_id == uid then
        (rest, true)
      else
        let r := removeNode rest id uid
        (n :: r.1, r.2)

/-- NodeService.delete (part_002 lines 242-260): delete the node record; if
nothing was deleted return not-found with no further effects; otherwise stop
the timer, then delete all samples of the node.  The trace lists the effects
in the order the source performs them. -/
def deleteNode (s : EngineState) (nodeId userId : String) :
    EngineState × List Effect × Bool :=
  let r := removeNode s.nodes nodeId userId
  if r.2 then
    ({ s with nodes := r.1,
              timers := stopNode s.timers nodeId,
              samples := s.samples.filter (fun c => c.node_id != nodeId) },
     [Effect.nodeDeleted nodeId, Effect.timerStopped nodeId, Effect.samplesDeleted nodeId],
     true)
  else
    ({ s with nodes := r.1 }, [], false)

/-- The request NodeService.executeHttpCheck issues: body attached only when
truthy and the method is POST/PUT/PATCH. -/
structure HttpRequest where
  url : String
  method : HttpMethod
  headers : List (String × String)
  body : Option String
deriving DecidableEq, Repr

/-- Assembly of the fetch options in executeHttpCheck (part_002 lines 349-357). -/
def httpCheckRequest (url : String) (m : HttpMethod) (hs : List (String × String))
    (b : String) : HttpRequest :=
  { url := url, method := m, headers := hs,
    body := if b ≠ "" ∧ (m = HttpMethod.POST ∨ m = HttpMethod.PUT ∨ m = HttpMethod.PATCH)
            then some b else none }

/-- The result shape of executeHttpCheck (response_time omitted: wall clock). -/
structure HttpCheckResult where
  status_code : Nat
  status_text : String
  content_size : Nat
  connection_established : Bool
deriving DecidableEq, Repr

/-- NodeService.executeHttpCheck (part_002 lines 333-372): a raw fetch with no
try/catch — a failed request or a failed body read throws to the caller. -/
def executeHttpCheck (_url : String) (_m : HttpMethod) (_hs : List (String × String))
    (_b : String) (fr : FetchResult) : Except String HttpCheckResult :=
  match fr with
  | FetchResult.err msg => Except.error msg
  | FetchResult.ok st stText bodyRead =>
      match bodyRead with
      | Except.error msg => Except.error msg
      | Except.ok t =>
          Except.ok { status_code := st, status_text := stText,
                      content_size := t.utf8ByteSize, connection_established := true }

/-- NodeService.testCheck (part_002 lines 308-321): look the node up by id and
owner; when found, run executeHttpCheck once with the node's stored
configuration and return its result (an executeHttpCheck throw is caught and
surfaced as an error result).  No store is written. -/
def testCheck (s : EngineState) (nodeId userId : String) (fr : FetchResult) :
    Option (HttpRequest × Except String HttpCheckResult) × EngineState :=
  match findByIdAndUser s.nodes nodeId userId with
  | none => (none, s)
  | some n =>
      (some (httpCheckRequest n.endpoint_url n.method n.headers n.body,
             executeHttpCheck n.endpoint_url n.method n.headers n.body fr), s)

/-! ## Telemetry aggregation
(src/src/repositories/health-check.repository.ts, HealthCheckRepository) -/

/-- JavaScript Math.round on an exact rational: round half toward positive
infinity. -/
def jsRound (q : ℚ) : ℤ := ⌊q + 1/2⌋

/-- `Math.round(x * 10) / 10` — round to one decimal. -/
def round10 (q : ℚ) : ℚ := (jsRound (q * 10) : ℚ) / 10

/-- `Math.round(x * 10000) / 100` — a ratio as a percentage with two decimals. -/
def roundPercent (q : ℚ) : ℚ := (jsRound (q * 10000) : ℚ) / 100

/-- Mean of a list of naturals as an exact rational (Mongo `$avg`). -/
def ratAvg (l : List Nat) : ℚ := (l.map (fun x => (x : ℚ))).sum / l.length

/-- The `$group` key of getTelemetryBuckets:
`toLong(created_at) - toLong(created_at) % bucketMs`. -/
def bucketKey (w ts : Nat) : Nat := ts - ts % w

/-- The `$match` stage of getTelemetryBuckets: samples of the requested nodes
with `created_at >= since`. -/
def matchedSamples (samples : List HealthCheck) (nodeIds : List String) (since : Nat) :
    List HealthCheck :=
  samples.filter (fun c => nodeIds.contains c.node_id && since ≤ c.created_at)

/-- One row of the getTelemetryBuckets result. -/
structure TelemetryBucket where
  timestamp : Nat
  avg_response : ℚ
  p99_response : ℚ
  total_checks : Nat
  failed_checks : Nat
deriving DecidableEq, Repr

/-- HealthCheckRepository.getTelemetryBuckets (lines 98-150): match, group by
the epoch-aligned bucket key, aggregate, `$sort` by key ascending.  `p99fn`
abstracts the database-native approximate `$percentile`; the source falls back
to the bucket average when the percentile result is missing or zero
(`r.p99_response?.[0] || r.avg_response`).

`mkBucket` is the aggregation of one `$group` row for key `k`. -/
def mkBucket (p99fn : List Nat → Option ℚ) (matched : List HealthCheck) (w k : Nat) :
    TelemetryBucket :=
  let grp := matched.filter (fun c => bucketKey w c.created_at == k)
  let avg := ratAvg (grp.map (fun c => c.response_time))
  let p99 := match p99fn (grp.map (fun c => c.response_time)) with
    | some p => if p = 0 then avg else p
    | none => avg
  { timestamp := k
    avg_response := round10 avg
    p99_response := round10 p99
    total_checks := grp.length
    failed_checks := (grp.filter (fun c => !c.success)).length }

def getTelemetryBuckets (p99fn : List Nat → Option ℚ) (samples : List HealthCheck)
    (nodeIds : List String) (since : Nat) (bucketSeconds : Nat) : List TelemetryBucket :=
  let w := bucketSeconds * 1000
  let matched := matchedSamples samples nodeIds since
  let keys := ((matched.map (fun c => bucketKey w c.created_at)).dedup).insertionSort (· ≤ ·)
  keys.map (mkBucket p99fn matched w)

/-- HealthCheckRepository.getCheckCounts: (success_count, failure_count) over
the node's full history. -/
def getCheckCounts (samples : List HealthCheck) (nodeId : String) : Nat × Nat :=
  let cs := samples.filter (fun c => c.node_id == nodeId)
  ((cs.filter (fun c => c.success)).length, (cs.filter (fun c => !c.success)).length)

/-- HealthCheckRepository.getUptimePercentage with no `since`: 100 when the
node has no samples, else the success ratio as a two-decimal percentage. -/
def getUptimePercentage (samples : List HealthCheck) (nodeId : String) : ℚ :=
  let cs := samples.filter (fun c => c.node_id == nodeId)
  if cs.length = 0 then 100
  else roundPercent (((cs.filter (fun c => c.success)).length : ℚ) / cs.length)

/-- HealthCheckRepository.getAverageResponseTime with no `since`: mean
response time over successful samples, 0 when there are none
(`result[0]?.avg || 0`). -/
def getAverageResponseTime (samples : List HealthCheck) (nodeId : String) : ℚ :=
  let ok := samples.filter (fun c => c.node_id == nodeId && c.success)
  if ok.length = 0 then 0 else ratAvg (ok.map (fun c => c.response_time))

/-! ## NodeRepository.list defaults and DashboardService.getOverview
(src/src/repositories/health-check.repository.ts lines 207-228,
src/src/services/dashboard.service.ts lines 38-153) -/

/-- NodeRepository.list for a query carrying only user_id, page and limit (the
dashboard's call): filter by user, sort by the default field `created_at` in
the default direction descending, then skip `(page-1)*limit` and take `limit`.
Returns the page and the total match count. -/
def listNodesDefault (nodes : List Node) (uid : String) (page limit : Nat) :
    List Node × Nat :=
  let filtered := nodes.filter (fun n => n.user_id == uid)
  let sorted := filtered.insertionSort (fun a b => b.created_at ≤ a.created_at)
  ((sorted.drop ((page - 1) * limit)).take limit, filtered.length)

/-- NodeRepository.countByUser: status histogram over all of the user's nodes. -/
structure StatusCounts where
  total : Nat
  active : Nat
  down : Nat
  paused : Nat
  warning : Nat
deriving DecidableEq, Repr

/-- NodeRepository.countByUser (lines 275-287). -/
def countByUser (nodes : List Node) (uid : String) : StatusCounts :=
  let mine := nodes.filter (fun n => n.user_id == uid)
  { total := mine.length
    active := (mine.filter (fun n => n.status == NodeStatus.active)).length
    down := (mine.filter (fun n => n.status == NodeStatus.down)).length
    paused := (mine.filter (fun n => n.status == NodeStatus.paused)).length
    warning := (mine.filter (fun n => n.status == NodeStatus.warning)).length }

/-- One row of the dashboard's services_overview (and of NodeService.list's
enriched items). -/
structure ServiceOverviewItem where
  id : String
  status : NodeStatus
  name : String
  endpoint : String
  method : HttpMethod
  interval : Nat
  uptime_percentage : ℚ
  avg_response : ℤ
  last_check : Option Nat
  failure_count : Nat
  success_count : Nat
deriving DecidableEq, Repr

/-- The enrichment of one page node (dashboard.service.ts lines 47-67). -/
def serviceOverviewItem (samples : List HealthCheck) (n : Node) : ServiceOverviewItem :=
  { id := n.id
    status := n.status
    name := n.name
    endpoint := n.endpoint_url
    method := n.method
    interval := n.check_interval
    uptime_percentage := getUptimePercentage samples n.id
    avg_response := jsRound (getAverageResponseTime samples n.id)
    last_check := n.last_check_at
    failure_count := (getCheckCounts samples n.id).2
    success_count := (getCheckCounts samples n.id).1 }

/-- The dashboard page of nodes: `nodeRepository.list({user_id, page: 1, limit: 6})`. -/
def dashboardPageNodes (nodes : List Node) (uid : String) : List Node :=
  (listNodesDefault nodes uid 1 6).1

/-- The fields of the dashboard report the claims are about.  The check/error
log lists (also restricted to the page node ids in the source) are omitted. -/
structure DashboardData where
  services_overview : List ServiceOverviewItem
  telemetry_buckets : List TelemetryBucket
  response_time_current : ℚ
  request_rate_current : ℤ
  error_rate_current : ℚ
  latency_p99_current : ℚ
  status_overview : StatusCounts
deriving DecidableEq, Repr

/-- DashboardService.getOverview (cache miss path, lines 38-153): the page is
the user's first 6 nodes under the default sort; telemetry buckets are
computed over exactly those node ids with a 5-minute window and 30-second
buckets; the `current` figures come from the last (newest) bucket; the status
overview comes from countByUser over all of the user's nodes. -/
def getOverview (p99fn : List Nat → Option ℚ) (nodes : List Node)
    (samples : List HealthCheck) (uid : String) (now : Nat) : DashboardData :=
  let pageNodes := dashboardPageNodes nodes uid
  let ids := pageNodes.map (fun n => n.id)
  let buckets := getTelemetryBuckets p99fn samples ids (now - 5 * 60 * 1000) 30
  let last := buckets.getLast?
  { services_overview := pageNodes.map (serviceOverviewItem samples)
    telemetry_buckets := buckets
    response_time_current := match last with | some b => b.avg_response | none => 0
    request_rate_current :=
      match last with | some b => jsRound ((b.total_checks : ℚ) * (60 / 30)) | none => 0
    error_rate_current :=
      match last with
      | some b => if 0 < b.total_checks
                  then roundPercent ((b.failed_checks : ℚ) / b.total_checks)
                  else 0
      | none => 0
    latency_p99_current := match last with | some b => b.p99_response | none => 0
    status_overview := countByUser nodes uid }

/-! ## Concrete fixtures used as counterexample / witness inputs -/

/-- A default-shaped node (defaults of §3: GET, expected 200/201/204,
threshold 3, active, no failures). -/
def baseNode : Node :=
  { id := "srv1", user_id := "u1", name := "svc", endpoint_url := "http://example.test/ok",
    method := HttpMethod.GET, headers := [], body := "", check_interval := 30000,
    expected_status_codes := [200, 201, 204], failure_threshold := 3,
    status := NodeStatus.active, consecutive_failures := 0, last_check_at := none,
    created_at := 0 }

/-- A node that is already down at its threshold and fails again. -/
def c1DownNode : Node :=
  { baseNode with status := NodeStatus.down, consecutive_failures := 3 }

/-- A node with failure_threshold 1 and no failures yet. -/
def c1ThresholdOneNode : Node :=
  { baseNode with failure_threshold := 1 }

/-- Engine state in which the previous tick's probe for srv1 is still in
flight when the next tick fires. -/
def c2State : EngineState :=
  { nodes := [baseNode], samples := [], timers := ["srv1"], inFlight := ["srv1"] }

/-- Engine state with srv1 active and monitored. -/
def c5State : EngineState :=
  { nodes := [baseNode], samples := [], timers := ["srv1"], inFlight := [] }

/-- A patch that renames the service and touches nothing else — in particular
not check_interval. -/
def c5Patch : UpdateNodeDTO :=
  { emptyPatch with service_name := some "renamed" }

/-- Sample constructor for fixtures. -/
def mkSample (nid : String) (idx ts rt : Nat) (succ : Bool) : HealthCheck :=
  { id := "chk" ++ toString idx, node_id := nid,
    status_code := if succ then 200 else 503, status_text := "",
    response_time := rt, success := succ, error_message := "", created_at := ts }

/-- Engine state with srv1 monitored and owning one sample. -/
def c6State : EngineState :=
  { nodes := [baseNode], samples := [mkSample "srv1" 1 5 12 false],
    timers := ["srv1"], inFlight := [] }

/-- Scenario fixture: 10 samples at +0s..+27s step 3s, response times
10..100, alternating success. -/
def c9samples : List HealthCheck :=
  [mkSample "n" 0 0 10 true, mkSample "n" 1 3000 20 false,
   mkSample "n" 2 6000 30 true, mkSample "n" 3 9000 40 false,
   mkSample "n" 4 12000 50 true, mkSample "n" 5 15000 60 false,
   mkSample "n" 6 18000 70 true, mkSample "n" 7 21000 80 false,
   mkSample "n" 8 24000 90 true, mkSample "n" 9 27000 100 false]

/-- A percentile oracle that always reports no result (the fallback path). -/
def p99none : List Nat → Option ℚ := fun _ => none

/-- The single expected bucket for the c9samples fixture at 30-second width. -/
def c9Bucket : TelemetryBucket :=
  { timestamp := 0, avg_response := 55, p99_response := 55,
    total_checks := 10, failed_checks := 5 }

/-- Seven nodes of one user with distinct creation times 1..7. -/
def c10nodes : List Node :=
  [{ baseNode with id := "nd1", created_at := 1 },
   { baseNode with id := "nd2", created_at := 2 },
   { baseNode with id := "nd3", created_at := 3 },
   { baseNode with id := "nd4", created_at := 4 },
   { baseNode with id := "nd5", created_at := 5 },
   { baseNode with id := "nd6", created_at := 6 },
   { baseNode with id := "nd7", created_at := 7 }]

/-- A sample belonging to nd1, the user's oldest node — the one that falls off
the dashboard's first page of 6. -/
def c10sample : HealthCheck := mkSample "nd1" 99 0 10 true

/-! # Theorems -/

/-- Claim C1 (counterexample): the claimed failure rule, read as the sequential
if / else-if chain it states ("new count ≥ threshold AND status ≠ down →
down; otherwise new count ≥ 2 AND status ≠ warning → warning"), disagrees
with the code on a node that is already down and fails again: the code keeps
the node down, while the claimed chain falls through its first guard (status
is already down) and relabels the node warning. -/
theorem C1_failure_rule_counterexample :
    (executeCheckNode c1DownNode false 0).status = NodeStatus.down ∧
    (claimFailureStep c1DownNode 0).status = NodeStatus.warning ∧
    executeCheckNode c1DownNode false 0 ≠ claimFailureStep c1DownNode 0 := by
  decide

/-- Claim C1 (amended): a failed probe increments consecutive_failures by
exactly 1, and the status transition is the nested conditional of the source:
when the new count reaches failure_threshold the node becomes down unless it
is already down (in which case nothing changes — it never regresses to
warning); only when the new count is below the threshold does the warning rule
apply, at a new count of at least 2 and status not already warning; otherwise
the status is unchanged.  In particular with failure_threshold = 1 a node not
already down goes straight to down on its first failure, never through
warning. -/
theorem C1_failure_rule_amended (n : Node) (now : Nat) :
    (executeCheckNode n false now).consecutive_failures = n.consecutive_failures + 1 ∧
    (executeCheckNode n false now).status =
      (if n.failure_threshold ≤ n.consecutive_failures + 1 then
        (if n.status = NodeStatus.down then n.status else NodeStatus.down)
      else if 2 ≤ n.consecutive_failures + 1 ∧ n.status ≠ NodeStatus.warning then
        NodeStatus.warning
      else n.status) ∧
    (n.failure_threshold = 1 ∧ n.status ≠ NodeStatus.down →
      (executeCheckNode n false now).status = NodeStatus.down) := by
  have he : executeCheckNode n false now = applyFailure n now := rfl
  rw [he]
  simp only [applyFailure, incrementFailures, updateStatus]
  refine ⟨?_, ?_, ?_⟩
  · split_ifs <;> rfl
  · split_ifs <;> simp_all
  · rintro ⟨h1, h2⟩
    split_ifs <;> simp_all

/-- Claim C1 (witness for the amended theorem): with failure_threshold = 1,
the very first failure takes an active node to down with one recorded
failure. -/
theorem C1_failure_rule_amended_witness :
    (executeCheckNode c1ThresholdOneNode false 7).consecutive_failures = 1 ∧
    (executeCheckNode c1ThresholdOneNode false 7).status = NodeStatus.down := by
  have h := C1_failure_rule_amended c1ThresholdOneNode 7
  exact ⟨h.1, h.2.2 ⟨rfl, by decide⟩⟩

/-- Claim C2 (code bug): the tick callback has no in-flight guard.  In a state
where the previous tick's probe for srv1 is still in flight, the next tick for
srv1 is not skipped: it starts a second concurrent probe, leaving two probes
in flight for the same node. -/
theorem C2_tick_no_inflight_guard :
    "srv1" ∈ c2State.inFlight ∧
    "srv1" ∈ c2State.timers ∧
    (tickFire c2State "srv1").2 = TickResult.probeStarted ∧
    (tickFire c2State "srv1").1.inFlight = ["srv1", "srv1"] := by
  decide

/-- Claim C3: after any successful probe applied by the tick path, the node
has consecutive_failures = 0 and status = active, whatever the prior counter
and status. -/
theorem C3_success_resets (n : Node) (now : Nat) :
    (executeCheckNode n true now).consecutive_failures = 0 ∧
    (executeCheckNode n true now).status = NodeStatus.active := by
  have he : executeCheckNode n true now = applySuccess n now := rfl
  rw [he]
  simp only [applySuccess, resetFailures, updateStatus]
  split_ifs <;> simp_all

/-- Claim C4: every tick's persisted node mutation — success with a clean
counter, success after failures, or failure — sets last_check_at to the tick's
fresh timestamp. -/
theorem C4_last_check_always_updated (n : Node) (success : Bool) (now : Nat) :
    (executeCheckNode n success now).last_check_at = some now := by
  cases success
  · have he : executeCheckNode n false now = applyFailure n now := rfl
    rw [he]
    simp only [applyFailure, incrementFailures, updateStatus]
    split_ifs <;> rfl
  · have he : executeCheckNode n true now = applySuccess n now := rfl
    rw [he]
    simp only [applySuccess, resetFailures, updateStatus]
    split_ifs <;> rfl

/-- Claim C7: TestProbe is pure with respect to the stores — the state
(nodes, samples, timers) is returned unchanged — and when the node is found
for the acting user it runs one HTTP check built from exactly the node's
stored endpoint_url, method, headers and body. -/
theorem C7_test_probe_pure (s : EngineState) (nodeId userId : String) (fr : FetchResult) :
    (testCheck s nodeId userId fr).2 = s ∧
    (testCheck s nodeId userId fr).1 =
      (findByIdAndUser s.nodes nodeId userId).map
        (fun n => (httpCheckRequest n.endpoint_url n.method n.headers n.body,
                   executeHttpCheck n.endpoint_url n.method n.headers n.body fr)) := by
  unfold testCheck
  cases h : findByIdAndUser s.nodes nodeId userId <;> simp [h]

/-- Claim C8 (counterexample): a body-read failure is not a transport failure
in the code — the inner catch swallows it, so the outcome keeps the real HTTP
status (here 200, classified a success), not status_code 0 with
"Connection Failed". -/
theorem C8_body_read_counterexample :
    (executeProbe baseNode (FetchResult.ok 200 "OK" (Except.error "read aborted"))).status_code
      = 200 ∧
    (executeProbe baseNode (FetchResult.ok 200 "OK" (Except.error "read aborted"))).success
      = true ∧
    (executeProbe baseNode (FetchResult.ok 200 "OK" (Except.error "read aborted"))).status_text
      ≠ "Connection Failed" := by
  decide

/-- Claim C8 (amended): the executor is total — every invocation yields an
outcome — and on a failure of the request itself (DNS, connection refused,
TLS, timeout: the outer catch) the outcome has status_code 0, status_text
"Connection Failed", success false and a non-empty error message; a failure
while reading the response body, however, is swallowed: the outcome keeps the
HTTP status and its classification against expected_status_codes, recording
only a placeholder body. -/
theorem C8_transport_failure_fields (n : Node) (msg : String) (st : Nat)
    (stText bmsg : String) :
    (executeProbe n (FetchResult.err msg)).status_code = 0 ∧
    (executeProbe n (FetchResult.err msg)).status_text = "Connection Failed" ∧
    (executeProbe n (FetchResult.err msg)).success = false ∧
    (executeProbe n (FetchResult.err msg)).error_message ≠ "" ∧
    (executeProbe n (FetchResult.ok st stText (Except.error bmsg))).status_code = st ∧
    (executeProbe n (FetchResult.ok st stText (Except.error bmsg))).success
      = n.expected_status_codes.contains st ∧
    (executeProbe n (FetchResult.ok st stText (Except.error bmsg))).response_body
      = "[unable to read response body]" := by
  unfold executeProbe
  refine ⟨rfl, rfl, rfl, ?_, rfl, rfl, rfl⟩
  by_cases h : msg = "" <;> simp [h]

/-- Claim C5 (counterexample): an update that does not touch check_interval —
here a pure rename of an active, monitored node — still cancels and reinstalls
the scheduler timer, refuting the claimed "only if the patch changed
check_interval". -/
theorem C5_reinstall_counterexample :
    c5Patch.check_interval = none ∧
    (updateNode c5State "srv1" "u1" c5Patch).2.2 = true ∧
    ((updateNode c5State "srv1" "u1" c5Patch).2.1.map (fun n => n.check_interval))
      = some 30000 := by
  decide

/-- Claim C5 (amended): UpdateNode cancels and reinstalls the timer iff the
patched node was found and its status is active and the engine currently
monitors it — irrespective of whether the patch changed check_interval. -/
theorem C5_reinstall_iff (s : EngineState) (nodeId userId : String) (d : UpdateNodeDTO) :
    (updateNode s nodeId userId d).2.2 = true ↔
      (∃ n, (updateNodeInList s.nodes nodeId userId d).2 = some n ∧
            n.status = NodeStatus.active ∧ isMonitoring s.timers nodeId = true) := by
  unfold updateNode
  cases h : (updateNodeInList s.nodes nodeId userId d).2 with
  | none => simp [h]
  | some node =>
      simp only [h]
      split_ifs with hc
      · simp only [true_iff]
        exact ⟨node, rfl, hc.1, hc.2⟩
      · simp only [false_iff]
        rintro ⟨m, hm, hma, hmi⟩
        exact hc (by cases hm; exact ⟨hma, hmi⟩)

/-- Claim C6 (counterexample): the delete path's effects run in the order
node record first, then timer, then samples — not the claimed timer, samples,
node. -/
theorem C6_delete_order_counterexample :
    (deleteNode c6State "srv1" "u1").2.1 =
      [Effect.nodeDeleted "srv1", Effect.timerStopped "srv1", Effect.samplesDeleted "srv1"] ∧
    (deleteNode c6State "srv1" "u1").2.1 ≠
      [Effect.timerStopped "srv1", Effect.samplesDeleted "srv1", Effect.nodeDeleted "srv1"] := by
  decide

/-- Claim C6 (amended): a successful DeleteNode performs its three effects in
the order node record deleted, then timer cancelled, then samples deleted; and
after it returns no sample with that node_id remains in the store. -/
theorem C6_delete_effects (s : EngineState) (nodeId userId : String)
    (h : (deleteNode s nodeId userId).2.2 = true) :
    (deleteNode s nodeId userId).2.1 =
      [Effect.nodeDeleted nodeId, Effect.timerStopped nodeId, Effect.samplesDeleted nodeId] ∧
    ∀ c ∈ (deleteNode s nodeId userId).1.samples, c.node_id ≠ nodeId := by
  simp only [deleteNode] at h ⊢
  split_ifs at h ⊢ with hr
  refine ⟨rfl, ?_⟩
  intro c hc
  have hp := (List.mem_filter.1 hc).2
  simpa using hp

/-- Claim C6 (witness): deleting srv1 from a state holding one of its samples
yields the node-timer-samples effect order and an empty sample store. -/
theorem C6_delete_effects_witness :
    (deleteNode c6State "srv1" "u1").2.1 =
      [Effect.nodeDeleted "srv1", Effect.timerStopped "srv1", Effect.samplesDeleted "srv1"] ∧
    (deleteNode c6State "srv1" "u1").1.samples = [] := by
  have h := C6_delete_effects c6State "srv1" "u1" (by decide)
  exact ⟨h.1, by decide⟩

/-- The source's `$subtract`/`$mod` bucket key equals the epoch-aligned
floor form of the spec. -/
theorem bucketKey_eq_div_mul (w ts : Nat) : bucketKey w ts = ts / w * w := by
  have h : ts % w + w * (ts / w) = ts := Nat.mod_add_div ts w
  unfold bucketKey
  calc ts - ts % w = ts % w + w * (ts / w) - ts % w := by rw [h]
    _ = w * (ts / w) := Nat.add_sub_cancel_left _ _
    _ = ts / w * w := Nat.mul_comm _ _

/-- Claim C9: for every telemetry-bucket query, the returned buckets are
strictly ascending by timestamp; every bucket groups at least one matched
sample (empty buckets are omitted); every bucket's key is the epoch-aligned
`floor(ts / width) * width` of each sample it groups; and its average is the
mean response time of its group rounded to one decimal (its check count being
the group size). -/
theorem C9_telemetry_buckets (p99fn : List Nat → Option ℚ) (samples : List HealthCheck)
    (nodeIds : List String) (since bucketSeconds : Nat) :
    (getTelemetryBuckets p99fn samples nodeIds since bucketSeconds).Pairwise
      (fun a b => a.timestamp < b.timestamp) ∧
    ∀ b ∈ getTelemetryBuckets p99fn samples nodeIds since bucketSeconds,
      (∃ c ∈ matchedSamples samples nodeIds since,
          bucketKey (bucketSeconds * 1000) c.created_at = b.timestamp) ∧
      (∀ c ∈ matchedSamples samples nodeIds since,
          bucketKey (bucketSeconds * 1000) c.created_at = b.timestamp →
          b.timestamp = c.created_at / (bucketSeconds * 1000) * (bucketSeconds * 1000)) ∧
      b.avg_response = round10 (ratAvg (((matchedSamples samples nodeIds since).filter
          (fun c => bucketKey (bucketSeconds * 1000) c.created_at == b.timestamp)).map
          (fun c => c.response_time))) ∧
      b.total_checks = ((matchedSamples samples nodeIds since).filter
          (fun c => bucketKey (bucketSeconds * 1000) c.created_at == b.timestamp)).length ∧
      0 < b.total_checks := by
  constructor
  · simp only [getTelemetryBuckets]
    rw [List.pairwise_map]
    have hnd : ((((matchedSamples samples nodeIds since).map
        (fun c => bucketKey (bucketSeconds * 1000) c.created_at)).dedup).insertionSort
        (· ≤ ·)).Nodup :=
      ((List.perm_insertionSort _ _).nodup_iff).2 (List.nodup_dedup _)
    have hsorted := List.sorted_insertionSort (α := Nat) (· ≤ ·)
      (((matchedSamples samples nodeIds since).map
        (fun c => bucketKey (bucketSeconds * 1000) c.created_at)).dedup)
    exact hsorted.lt_of_le hnd
  · intro b hb
    simp only [getTelemetryBuckets] at hb
    obtain ⟨k, hk, rfl⟩ := List.mem_map.1 hb
    have hkmem : k ∈ ((matchedSamples samples nodeIds since).map
        (fun c => bucketKey (bucketSeconds * 1000) c.created_at)).dedup :=
      (List.mem_insertionSort _).1 hk
    obtain ⟨c, hc, hck⟩ := List.mem_map.1 (List.mem_dedup.1 hkmem)
    refine ⟨⟨c, hc, hck⟩, ?_, rfl, rfl, ?_⟩
    · intro c2 hc2 hkey
      rw [← hkey]
      exact bucketKey_eq_div_mul _ _
    · have hcg : c ∈ (matchedSamples samples nodeIds since).filter
          (fun x => bucketKey (bucketSeconds * 1000) x.created_at == k) :=
        List.mem_filter.2 ⟨hc, by simp [hck]⟩
      exact List.length_pos_of_mem hcg

/-- Claim C9 (witness): on the 10-sample fixture (spec scenario 6) the query
over a single 30-second bucket yields an ascending result whose one bucket
holds all 10 checks with mean 55.0. -/
theorem c9_result_eval :
    getTelemetryBuckets p99none c9samples ["n"] 0 30 = [c9Bucket] := by
  simp only [getTelemetryBuckets, matchedSamples, c9samples, mkSample, p99none,
    bucketKey, c9Bucket]
  norm_num [List.filter, List.dedup, List.pwFilter, List.insertionSort, List.orderedInsert]
  norm_num [mkBucket, bucketKey, List.filter, ratAvg, round10, jsRound, p99none]

/-- Claim C9 (witness): on the 10-sample fixture (spec scenario 6) the query
over a single 30-second bucket yields an ascending result whose one bucket
holds all 10 checks with mean 55.0. -/
theorem C9_telemetry_buckets_witness :
    (getTelemetryBuckets p99none c9samples ["n"] 0 30).Pairwise
      (fun a b => a.timestamp < b.timestamp) ∧
    c9Bucket.avg_response = round10 (ratAvg (((matchedSamples c9samples ["n"] 0).filter
        (fun c => bucketKey (30 * 1000) c.created_at == c9Bucket.timestamp)).map
        (fun c => c.response_time))) ∧
    0 < c9Bucket.total_checks ∧
    c9Bucket.avg_response = 55 ∧
    c9Bucket.total_checks = 10 := by
  have h := C9_telemetry_buckets p99none c9samples ["n"] 0 30
  have hmem : c9Bucket ∈ getTelemetryBuckets p99none c9samples ["n"] 0 30 := by
    rw [c9_result_eval]
    exact List.mem_singleton_self _
  have hb := h.2 c9Bucket hmem
  exact ⟨h.1, hb.2.2.1, hb.2.2.2.2, rfl, rfl⟩

/-- A sample of a foreign node does not change a node's enrichment row. -/
theorem serviceOverviewItem_cons (c : HealthCheck) (samples : List HealthCheck) (n : Node)
    (h : c.node_id ≠ n.id) :
    serviceOverviewItem (c :: samples) n = serviceOverviewItem samples n := by
  have hb : (c.node_id == n.id) = false := beq_eq_false_iff_ne.mpr h
  simp only [serviceOverviewItem, getCheckCounts, getUptimePercentage, getAverageResponseTime]
  simp [List.filter_cons, hb]

/-- A sample of a node outside the queried id set does not pass the `$match`
stage. -/
theorem matchedSamples_cons (c : HealthCheck) (samples : List HealthCheck)
    (nodeIds : List String) (since : Nat) (h : nodeIds.contains c.node_id = false) :
    matchedSamples (c :: samples) nodeIds since = matchedSamples samples nodeIds since := by
  unfold matchedSamples
  rw [List.filter_cons]
  simp only [h, Bool.false_and, Bool.false_eq_true, if_false]

/-- A sample of a node outside the queried id set does not change the bucket
result. -/
theorem getTelemetryBuckets_cons (p99fn : List Nat → Option ℚ) (c : HealthCheck)
    (samples : List HealthCheck) (nodeIds : List String) (since bucketSeconds : Nat)
    (h : nodeIds.contains c.node_id = false) :
    getTelemetryBuckets p99fn (c :: samples) nodeIds since bucketSeconds =
      getTelemetryBuckets p99fn samples nodeIds since bucketSeconds := by
  simp only [getTelemetryBuckets]
  rw [matchedSamples_cons c samples nodeIds since h]

/-- Claim C10: the dashboard's page is the user's first 6 nodes under the
default created_at-descending sort; services_overview and the bucketed
telemetry (hence the request-rate, error-rate and p99 `current` figures) are
computed over those page nodes only — a sample belonging to any other node,
in particular the user's nodes beyond the first 6, leaves the whole report
unchanged — while status_overview counts all of the user's nodes. -/
theorem C10_dashboard_first_page_scope (p99fn : List Nat → Option ℚ) (nodes : List Node)
    (samples : List HealthCheck) (uid : String) (now : Nat) (c : HealthCheck) :
    dashboardPageNodes nodes uid =
      ((nodes.filter (fun n => n.user_id == uid)).insertionSort
        (fun a b => b.created_at ≤ a.created_at)).take 6 ∧
    (dashboardPageNodes nodes uid).length ≤ 6 ∧
    (getOverview p99fn nodes samples uid now).status_overview.total =
      (nodes.filter (fun n => n.user_id == uid)).length ∧
    (getOverview p99fn nodes samples uid now).services_overview =
      (dashboardPageNodes nodes uid).map (serviceOverviewItem samples) ∧
    (c.node_id ∉ (dashboardPageNodes nodes uid).map (fun n => n.id) →
      getOverview p99fn nodes (c :: samples) uid now =
        getOverview p99fn nodes samples uid now) := by
  refine ⟨?_, ?_, rfl, rfl, ?_⟩
  · simp [dashboardPageNodes, listNodesDefault]
  · simp only [dashboardPageNodes, listNodesDefault]
    exact List.length_take_le _ _
  · intro h
    have hc1 : ((dashboardPageNodes nodes uid).map (fun n => n.id)).contains c.node_id
        = false := by simpa using h
    have hbk := getTelemetryBuckets_cons p99fn c samples
      ((dashboardPageNodes nodes uid).map (fun n => n.id)) (now - 5 * 60 * 1000) 30 hc1
    have hsv : (dashboardPageNodes nodes uid).map (serviceOverviewItem (c :: samples)) =
        (dashboardPageNodes nodes uid).map (serviceOverviewItem samples) := by
      apply List.map_congr_left
      intro n hn
      apply serviceOverviewItem_cons
      intro he
      exact h (he ▸ List.mem_map_of_mem (fun n => n.id) hn)
    simp only [getOverview]
    rw [hbk, hsv]

/-- Claim C10 (witness): with 7 nodes of one user, a sample of the oldest node
(nd1, the one beyond the first page of 6) leaves the entire dashboard report
unchanged, while status_overview still counts all 7 nodes. -/
theorem C10_dashboard_first_page_scope_witness :
    getOverview p99none c10nodes [c10sample] "u1" 0 =
      getOverview p99none c10nodes [] "u1" 0 ∧
    (getOverview p99none c10nodes [] "u1" 0).status_overview.total = 7 := by
  have h := C10_dashboard_first_page_scope p99none c10nodes ([] : List HealthCheck)
    "u1" 0 c10sample
  refine ⟨h.2.2.2.2 ?_, ?_⟩
  · decide
  · rw [h.2.2.1]
    decide

end Watchdog
